import Mathlib

/-!
Verification development for the skyfi-intellicheck verification pipeline.

The definitions below are a shallow embedding of the Python worker and API
code (src/backend): enumerations and dataclasses from worker/models.py and
app/models/company.py, the signal generator, the rule engine, the MX and
WHOIS integration clients, the token-bucket rate limiter, the orchestrator
fragments of worker/handler.py, the persistence operations of
worker/db_utils.py, the status-transition table of the companies API, and
the status normalization of app/db/schema_utils.py.  Python ints are
modelled as Int, floats as Rat, naive UTC datetimes as Int timestamps
(seconds), optional values as Option, and raised exceptions as Except.
-/

namespace Intellicheck

/-- Status of an individual check (worker/models.py CheckStatus). -/
inductive CheckStatus where
  | success
  | failed
deriving DecidableEq, BEq

/-- Status of a verification signal (worker/models.py SignalStatus). -/
inductive SignalStatus where
  | ok
  | suspicious
  | mismatch
  | failed
deriving DecidableEq, BEq

/-- Severity level of a signal (worker/models.py SignalSeverity). -/
inductive SignalSeverity where
  | low
  | medium
  | high
deriving DecidableEq, BEq

/-- Verification signal (worker/models.py Signal). -/
structure Signal where
  field : String
  status : SignalStatus
  value : String
  weight : Int
  severity : SignalSeverity
deriving DecidableEq, BEq

/-- WHOIS lookup result (worker/models.py WhoisResult). -/
structure WhoisResult where
  domain_age_days : Option Int := none
  registrar : Option String := none
  privacy_enabled : Bool := false
  creation_date : Option Int := none
  status : CheckStatus := CheckStatus.failed
  error : Option String := none
deriving DecidableEq, BEq

/-- DNS query result (worker/models.py DNSResult). -/
structure DNSResult where
  resolves : Bool := false
  nameservers : List String := []
  a_records : List String := []
  status : CheckStatus := CheckStatus.failed
  error : Option String := none
deriving DecidableEq, BEq

/-- HTTP homepage fetch result (worker/models.py WebResult). -/
structure WebResult where
  reachable : Bool := false
  status_code : Option Int := none
  title : Option String := none
  description : Option String := none
  content_length : Int := 0
  status : CheckStatus := CheckStatus.failed
  error : Option String := none
deriving DecidableEq, BEq

/-- MX record validation result (worker/models.py MXResult). -/
structure MXResult where
  has_mx_records : Bool := false
  mx_records : List String := []
  email_configured : Bool := false
  status : CheckStatus := CheckStatus.failed
  error : Option String := none
deriving DecidableEq, BEq

/-- Phone normalization result (worker/models.py PhoneResult). -/
structure PhoneResult where
  normalized : Option String := none
  valid : Bool := false
  region : Option String := none
  status : CheckStatus := CheckStatus.failed
  error : Option String := none
deriving DecidableEq, BEq

/-- The submitted_data dict assembled in worker/handler.py (name, domain,
website_url, email, phone taken from the Company row; all but name and
domain may be None). -/
structure SubmittedData where
  name : String
  domain : String
  website_url : Option String := none
  email : Option String := none
  phone : Option String := none
deriving DecidableEq, BEq

/-- Python truthiness of an optional string (None and the empty string are
falsy). -/
def strTruthy : Option String → Bool
  | none => false
  | some s => !s.isEmpty

/-- Rule weights table from worker/config.py (RULE_WEIGHTS). -/
def RULE_WEIGHTS : List (String × Int) :=
  [ ("domain_age_lt_1_year", 20),
    ("whois_privacy_enabled", 10),
    ("address_mismatch", 15),
    ("email_mismatch", 10),
    ("phone_region_mismatch", 10),
    ("website_unreachable", 25),
    ("no_mx_records", 15) ]

/-- RULE_WEIGHTS.get(key, default) from the Python dict. -/
def ruleWeight (key : String) (dflt : Int) : Int :=
  match RULE_WEIGHTS.find? (fun p => p.1 == key) with
  | some p => p.2
  | none => dflt

/-- Rendering of Optional[int] inside a Python f-string (None prints as
"None"). -/
def optIntStr : Option Int → String
  | none => "None"
  | some n => toString n

/-- Rendering of Optional[str] inside a Python f-string. -/
def optStrStr : Option String → String
  | none => "None"
  | some s => s

/-- Domain age section of SignalGenerator.generate_signals. -/
def domainAgeSignals (whois_result : Option WhoisResult) : List Signal :=
  match whois_result with
  | some w =>
    if w.status == CheckStatus.success then
      match w.domain_age_days with
      | some age =>
        if age < 365 then
          [ { field := "domain_age", status := SignalStatus.suspicious,
              value := toString age ++ " days",
              weight := ruleWeight "domain_age_lt_1_year" 20,
              severity := SignalSeverity.high } ]
        else
          [ { field := "domain_age", status := SignalStatus.ok,
              value := toString age ++ " days",
              weight := 0, severity := SignalSeverity.low } ]
      | none =>
        [ { field := "domain_age", status := SignalStatus.suspicious,
            value := "Unknown",
            weight := ruleWeight "domain_age_lt_1_year" 20,
            severity := SignalSeverity.high } ]
    else
      [ { field := "domain_age", status := SignalStatus.suspicious,
          value := "Check failed",
          weight := ruleWeight "domain_age_lt_1_year" 20,
          severity := SignalSeverity.high } ]
  | none =>
    [ { field := "domain_age", status := SignalStatus.suspicious,
        value := "Check failed",
        weight := ruleWeight "domain_age_lt_1_year" 20,
        severity := SignalSeverity.high } ]

/-- WHOIS privacy section of SignalGenerator.generate_signals (emitted only
when the WHOIS check succeeded). -/
def whoisPrivacySignals (whois_result : Option WhoisResult) : List Signal :=
  match whois_result with
  | some w =>
    if w.status == CheckStatus.success then
      if w.privacy_enabled then
        [ { field := "whois_privacy", status := SignalStatus.suspicious,
            value := "Privacy enabled",
            weight := ruleWeight "whois_privacy_enabled" 10,
            severity := SignalSeverity.medium } ]
      else
        [ { field := "whois_privacy", status := SignalStatus.ok,
            value := "No privacy protection",
            weight := 0, severity := SignalSeverity.low } ]
    else []
  | none => []

/-- DNS resolution section of SignalGenerator.generate_signals. -/
def dnsResolutionSignals (dns_result : Option DNSResult) : List Signal :=
  match dns_result with
  | some d =>
    if d.status == CheckStatus.success then
      if d.resolves then
        [ { field := "dns_resolution", status := SignalStatus.ok,
            value := "Resolves to " ++ toString d.a_records.length ++ " IP(s)",
            weight := 0, severity := SignalSeverity.low } ]
      else
        [ { field := "dns_resolution", status := SignalStatus.suspicious,
            value := "Domain does not resolve",
            weight := 15, severity := SignalSeverity.high } ]
    else
      [ { field := "dns_resolution", status := SignalStatus.suspicious,
          value := "Check failed",
          weight := 15, severity := SignalSeverity.high } ]
  | none =>
    [ { field := "dns_resolution", status := SignalStatus.suspicious,
        value := "Check failed",
        weight := 15, severity := SignalSeverity.high } ]

/-- Website reachability section of SignalGenerator.generate_signals. -/
def websiteLookupSignals (web_result : Option WebResult) : List Signal :=
  match web_result with
  | some w =>
    if w.status == CheckStatus.success then
      if w.reachable then
        [ { field := "website_lookup", status := SignalStatus.ok,
            value := "HTTP " ++ optIntStr w.status_code,
            weight := 0, severity := SignalSeverity.low } ]
      else
        [ { field := "website_lookup", status := SignalStatus.suspicious,
            value := "Unreachable (HTTP " ++ optIntStr w.status_code ++ ")",
            weight := ruleWeight "website_unreachable" 25,
            severity := SignalSeverity.high } ]
    else
      [ { field := "website_lookup", status := SignalStatus.suspicious,
          value := "Check failed",
          weight := ruleWeight "website_unreachable" 25,
          severity := SignalSeverity.high } ]
  | none =>
    [ { field := "website_lookup", status := SignalStatus.suspicious,
        value := "Check failed",
        weight := ruleWeight "website_unreachable" 25,
        severity := SignalSeverity.high } ]

/-- Email/MX validation section of SignalGenerator.generate_signals.
When an email with a domain part was submitted it yields exactly one
email_match signal; with no email it yields an mx_records signal only when
the MX check succeeded and found no records; otherwise nothing. -/
def emailMxSignals (submitted_data : SubmittedData) (mx_result : Option MXResult) :
    List Signal :=
  if strTruthy submitted_data.email &&
      (submitted_data.email.getD "").contains '@' then
    let email_domain := ((submitted_data.email.getD "").splitOn "@").getLastD ""
    if email_domain.toLower != submitted_data.domain.toLower then
      [ { field := "email_match", status := SignalStatus.mismatch,
          value := "Email domain (" ++ email_domain ++ ") != company domain ("
            ++ submitted_data.domain ++ ")",
          weight := ruleWeight "email_mismatch" 10,
          severity := SignalSeverity.medium } ]
    else
      match mx_result with
      | some m =>
        if m.status == CheckStatus.success then
          if m.has_mx_records then
            [ { field := "email_match", status := SignalStatus.ok,
                value := "Domain matches, MX records configured ("
                  ++ toString m.mx_records.length ++ " records)",
                weight := 0, severity := SignalSeverity.low } ]
          else
            [ { field := "email_match", status := SignalStatus.suspicious,
                value := "Domain matches but no MX records",
                weight := ruleWeight "no_mx_records" 15,
                severity := SignalSeverity.medium } ]
        else
          [ { field := "email_match", status := SignalStatus.suspicious,
              value := "Domain matches (MX check failed)",
              weight := ruleWeight "no_mx_records" 15,
              severity := SignalSeverity.medium } ]
      | none =>
        [ { field := "email_match", status := SignalStatus.suspicious,
            value := "Domain matches (MX check failed)",
            weight := ruleWeight "no_mx_records" 15,
            severity := SignalSeverity.medium } ]
  else
    match mx_result with
    | some m =>
      if m.status == CheckStatus.success then
        if !m.has_mx_records then
          [ { field := "mx_records", status := SignalStatus.suspicious,
              value := "No MX records for domain",
              weight := ruleWeight "no_mx_records" 15,
              severity := SignalSeverity.medium } ]
        else []
      else []
    | none => []

/-- Phone validation section of SignalGenerator.generate_signals. -/
def phoneValidationSignals (submitted_data : SubmittedData)
    (phone_result : Option PhoneResult) : List Signal :=
  if strTruthy submitted_data.phone then
    match phone_result with
    | some p =>
      if p.status == CheckStatus.success then
        if p.valid then
          [ { field := "phone_validation", status := SignalStatus.ok,
              value := "Valid (" ++ optStrStr p.region ++ ")",
              weight := 0, severity := SignalSeverity.low } ]
        else
          [ { field := "phone_validation", status := SignalStatus.suspicious,
              value := "Invalid phone number format",
              weight := 5, severity := SignalSeverity.medium } ]
      else
        [ { field := "phone_validation", status := SignalStatus.suspicious,
            value := "Check failed",
            weight := 10, severity := SignalSeverity.medium } ]
    | none =>
      [ { field := "phone_validation", status := SignalStatus.suspicious,
          value := "Check failed",
          weight := 10, severity := SignalSeverity.medium } ]
  else []

/-- SignalGenerator.generate_signals: the six sections are appended in the
order of the source. -/
def generate_signals (submitted_data : SubmittedData)
    (whois_result : Option WhoisResult) (dns_result : Option DNSResult)
    (web_result : Option WebResult) (mx_result : Option MXResult)
    (phone_result : Option PhoneResult) : List Signal :=
  domainAgeSignals whois_result
    ++ whoisPrivacySignals whois_result
    ++ dnsResolutionSignals dns_result
    ++ websiteLookupSignals web_result
    ++ emailMxSignals submitted_data mx_result
    ++ phoneValidationSignals submitted_data phone_result

/-- RuleEngine.calculate_score: sum positive weights, clamp to 0..100. -/
def calculate_score (signals : List Signal) : Int :=
  let total := signals.foldl (fun acc s => if s.weight > 0 then acc + s.weight else acc) 0
  max 0 (min 100 total)

/-- SignalGenerator.compute_hybrid_score. -/
def compute_hybrid_score (rule_score llm_score_adjustment : Int) : Int :=
  max 0 (min 100 (rule_score + llm_score_adjustment))

/-- Company status enumeration (app/models/company.py CompanyStatus). -/
inductive CompanyStatus where
  | pending
  | approved
  | rejected
  | fraudulent
  | revoked
deriving DecidableEq, BEq

/-- String value of each CompanyStatus member (the str mixin values). -/
def CompanyStatus.value : CompanyStatus → String
  | .pending => "pending"
  | .approved => "approved"
  | .rejected => "rejected"
  | .fraudulent => "fraudulent"
  | .revoked => "revoked"

/-- Analysis status enumeration (app/models/company.py AnalysisStatus). -/
inductive AnalysisStatus where
  | pending
  | in_progress
  | completed
  | failed
  | incomplete
deriving DecidableEq, BEq

/-- String value of each AnalysisStatus member. -/
def AnalysisStatus.value : AnalysisStatus → String
  | .pending => "pending"
  | .in_progress => "in_progress"
  | .completed => "completed"
  | .failed => "failed"
  | .incomplete => "incomplete"

/-- Attribute names of the AnalysisStatus enum class; attribute access on
any other name raises AttributeError in Python. -/
def analysisStatusMembers : List (String × AnalysisStatus) :=
  [ ("PENDING", AnalysisStatus.pending),
    ("IN_PROGRESS", AnalysisStatus.in_progress),
    ("COMPLETED", AnalysisStatus.completed),
    ("FAILED", AnalysisStatus.failed),
    ("INCOMPLETE", AnalysisStatus.incomplete) ]

/-- Python attribute access AnalysisStatus.<name>: Except models the
AttributeError raised for a missing member. -/
def analysisStatusAttr (name : String) : Except String AnalysisStatus :=
  match analysisStatusMembers.find? (fun p => p.1 == name) with
  | some p => Except.ok p.2
  | none => Except.error "AttributeError"

/-- Operator status-transition table
(app/api/v1/endpoints/companies.py STATUS_TRANSITIONS). -/
def STATUS_TRANSITIONS : List ((CompanyStatus × String) × CompanyStatus) :=
  [ ((CompanyStatus.pending, "mark_review_complete"), CompanyStatus.approved),
    ((CompanyStatus.pending, "approve"), CompanyStatus.approved),
    ((CompanyStatus.pending, "reject"), CompanyStatus.rejected),
    ((CompanyStatus.pending, "flag_fraudulent"), CompanyStatus.fraudulent),
    ((CompanyStatus.approved, "flag_fraudulent"), CompanyStatus.fraudulent),
    ((CompanyStatus.approved, "revoke_approval"), CompanyStatus.revoked) ]

/-- companies.py _apply_status_action: none models the HTTP 400 raised for a
(state, action) pair missing from the table. -/
def apply_status_action (st : CompanyStatus) (action : String) :
    Option CompanyStatus :=
  (STATUS_TRANSITIONS.find? (fun e => e.1.1 == st && e.1.2 == action)).map
    (fun e => e.2)

/-- The mutable columns of a companies row touched by the worker
(app/models/company.py Company). -/
structure CompanyRow where
  status : CompanyStatus
  risk_score : Int
  analysis_status : AnalysisStatus
  current_step : Option String
  last_analyzed_at : Option Int
deriving DecidableEq, BEq

/-- Company-row update performed inside DatabaseManager.save_analysis
(worker/db_utils.py lines 254-259): risk_score, analysis_status,
current_step and last_analyzed_at are written; the status column is not
touched. -/
def save_analysis (company : CompanyRow) (risk_score : Int)
    (is_complete : Bool) (now : Int) : CompanyRow :=
  { company with
      risk_score := risk_score,
      analysis_status :=
        if is_complete then AnalysisStatus.completed else AnalysisStatus.incomplete,
      current_step := some "complete",
      last_analyzed_at := some now }

/-- DatabaseManager.save_analysis version assignment: max existing version
plus one, starting at 1 (worker/db_utils.py lines 213-220). -/
def nextAnalysisVersion (latest : Option Int) : Int :=
  match latest with
  | some v => v + 1
  | none => 1

/-- DatabaseManager.update_company_analysis_status
(worker/db_utils.py lines 147-177). -/
def update_company_analysis_status (company : CompanyRow)
    (status : AnalysisStatus) (current_step : Option String) (now : Int) :
    CompanyRow :=
  let c1 := { company with analysis_status := status }
  let c2 :=
    match current_step with
    | some s => if s.isEmpty then c1 else { c1 with current_step := some s }
    | none => c1
  if status == AnalysisStatus.completed then
    { c2 with current_step := some "complete", last_analyzed_at := some now }
  else if status == AnalysisStatus.failed then
    { c2 with current_step := none }
  else c2

/-- Keyword parameters accepted by
DatabaseManager.update_company_analysis_status (besides self). -/
def updateCompanyAnalysisStatusParams : List String :=
  ["company_id", "status", "current_step"]

/-- Whether a Python call supplying the given keyword arguments is accepted
by a function with the given parameter names (an unexpected keyword raises
TypeError). -/
def callAcceptsKwargs (params kwargs : List String) : Bool :=
  kwargs.all (fun k => params.contains k)

/-- The record-failure recovery branch of lambda_handler.process_all
(worker/handler.py lines 686-704): it evaluates AnalysisStatus.COMPLETE and
calls update_company_analysis_status with keyword mark_suspicious; both
raise (no COMPLETE member, no such parameter), the inner except swallows
the error, and the company row is left unchanged. -/
def recordFailureStatusUpdate (company : CompanyRow) (now : Int) : CompanyRow :=
  let attempt : Except String CompanyRow := do
    let st ← analysisStatusAttr "COMPLETE"
    if callAcceptsKwargs updateCompanyAnalysisStatusParams
        ["company_id", "status", "mark_suspicious"] then
      pure (update_company_analysis_status company st none now)
    else
      Except.error "TypeError"
  match attempt with
  | Except.ok c => c
  | Except.error _ => company

/-- The five probe stages in their fixed order (worker/handler.py). -/
def PROBE_CHECKS : List String :=
  ["whois", "dns", "mx_validation", "website_scrape", "phone"]

/-- checks_to_run computation of _process_company
(worker/handler.py lines 219-227): with retry_mode failed_only and a
non-empty retry set the list is filtered; with an empty retry set the code
only logs and the list keeps all five probes. -/
def checks_to_run (retry_mode : String) (retry_check_set : List String) :
    List String :=
  if retry_mode == "failed_only" then
    if !retry_check_set.isEmpty then
      PROBE_CHECKS.filter (fun c => retry_check_set.contains c)
    else
      PROBE_CHECKS
  else
    PROBE_CHECKS

/-- Completeness determination of _process_company
(worker/handler.py lines 486-493). -/
def computeIsComplete (successful_checks failed_checks : List String)
    (llm_attempted llm_succeeded : Bool) : Bool :=
  let is_complete :=
    decide (successful_checks.length ≥ 3) && decide (failed_checks.length = 0)
  if llm_attempted && !llm_succeeded then false else is_complete

/-- Outcome of processing one queue record: either _process_company returns
a result or it raises with an error message. -/
inductive RecordRun where
  | ok (result : String)
  | fail (err : String)
deriving DecidableEq, BEq

/-- Whether a record's processing raises. -/
def isFailRecord : RecordRun → Bool
  | RecordRun.ok _ => false
  | RecordRun.fail _ => true

/-- lambda_handler.process_all (worker/handler.py lines 605-714): records
are processed in order; a failure is recorded and then re-raised from
inside the loop, so the batch aborts at the first failing record and the
collected results are lost with the propagated exception. -/
def process_all : List RecordRun → Except String (List String)
  | [] => Except.ok []
  | RecordRun.ok r :: rest => (process_all rest).map (fun rs => r :: rs)
  | RecordRun.fail e :: _ => Except.error e

/-- Number of records whose processing is started by process_all (the loop
body runs for each record up to and including the first failing one). -/
def recordsProcessed : List RecordRun → Nat
  | [] => 0
  | RecordRun.ok _ :: rest => 1 + recordsProcessed rest
  | RecordRun.fail _ :: _ => 1

/-- Risk-based status normalization of app/db/schema_utils.py
(ensure_status_schema, the four sequential UPDATE statements): statuses and
analysis statuses are the normalized database strings. -/
def riskBasedNormalization (status analysis_status : String)
    (risk_score : Int) : String :=
  let s1 := if risk_score ≥ 70 then "fraudulent" else status
  let s2 :=
    if (s1 == "pending" || s1 == "approved") &&
        decide (31 ≤ risk_score) && decide (risk_score ≤ 69) then
      "suspicious"
    else s1
  let s3 :=
    if (s2 == "pending" || s2 == "approved") &&
        analysis_status == "complete" && decide (risk_score ≤ 30) then
      "approved"
    else s2
  if analysis_status != "complete" && s3 != "fraudulent" then
    "suspicious"
  else s3

/-- Python str.rstrip with a dot argument: drop all trailing dots. -/
def rstripDot (s : String) : String :=
  String.mk ((s.data.reverse.dropWhile (fun c => c == '.')).reverse)

/-- One MX answer as returned by the resolver: numeric preference and
exchange host. -/
structure MxAnswer where
  preference : Nat
  exchange : String
deriving DecidableEq, BEq

/-- The record string built by MXValidator._resolve_mx_records for one
answer. -/
def formatMxRecord (a : MxAnswer) : String :=
  toString a.preference ++ " " ++ rstripDot a.exchange

/-- Lexicographic comparison of character lists by code point, as Python
compares strings. -/
def charsLe : List Char → List Char → Bool
  | [], _ => true
  | _ :: _, [] => false
  | a :: as, b :: bs =>
    if a.toNat < b.toNat then true
    else if b.toNat < a.toNat then false
    else charsLe as bs

/-- Python string comparison (code-point lexicographic). -/
def pyStrLe (a b : String) : Bool :=
  charsLe a.data b.data

/-- Insertion of a string into a sorted list (Python sorted is a stable
comparison sort; any comparison sort yields this result on a total
order). -/
def insertSortedStr (x : String) : List String → List String
  | [] => [x]
  | y :: ys => if pyStrLe x y then x :: y :: ys else y :: insertSortedStr x ys

/-- Python sorted on a list of strings. -/
def sortStrings : List String → List String
  | [] => []
  | x :: xs => insertSortedStr x (sortStrings xs)

/-- MXValidator._resolve_mx_records (worker/integrations/mx_validator.py
lines 61-75): each answer is rendered as "preference exchange" and the list
of strings is sorted by Python's default string order (lexicographic). -/
def resolve_mx_records (answers : List MxAnswer) : List String :=
  sortStrings (answers.map formatMxRecord)

/-- Adjacent-pairs sortedness of a string list under Python string order. -/
def chainLeB : List String → Bool
  | [] => true
  | [_] => true
  | a :: b :: rest => pyStrLe a b && chainLeB (b :: rest)

/-- Decimal digits to a number; none when a non-digit occurs. -/
def digitsToNatAux : List Char → Nat → Option Nat
  | [], acc => some acc
  | c :: cs, acc =>
    if c.isDigit then digitsToNatAux cs (acc * 10 + (c.toNat - 48)) else none

/-- The numeric preference encoded at the front of a rendered MX record
string (the digits before the first space). -/
def mxRecordPreference (s : String) : Option Nat :=
  let w := s.data.takeWhile (fun c => !(c == ' '))
  if w.isEmpty then none else digitsToNatAux w 0

/-- Whether a list of rendered MX record strings is ascending by numeric
preference. -/
def ascendingByPreference : List String → Bool
  | [] => true
  | [_] => true
  | a :: b :: rest =>
    (match mxRecordPreference a, mxRecordPreference b with
     | some x, some y => decide (x ≤ y)
     | _, _ => false) && ascendingByPreference (b :: rest)

/-- The creation_date attribute of a WHOIS response: absent, a single naive
UTC datetime (an Int timestamp in seconds), or a list of them. -/
inductive WhoisCreationDate where
  | absent
  | one (t : Int)
  | many (ts : List Int)
deriving DecidableEq, BEq

/-- WhoisClient._parse_date (worker/integrations/whois_client.py lines
113-139): a list of dates is reduced to its first element. -/
def parse_date : WhoisCreationDate → Option Int
  | WhoisCreationDate.absent => none
  | WhoisCreationDate.one t => some t
  | WhoisCreationDate.many [] => none
  | WhoisCreationDate.many (t :: _) => some t

/-- Domain age computed by WhoisClient.lookup (lines 47-62):
(now - creation_date).days, Python timedelta days flooring. -/
def whoisDomainAgeDays (now : Int) (v : WhoisCreationDate) : Option Int :=
  (parse_date v).map (fun t => Int.fdiv (now - t) 86400)

/-- The earliest entry of a creation-date list, for comparison with what
the client actually uses. -/
def earliestDate : List Int → Option Int
  | [] => none
  | t :: ts => some (ts.foldl min t)

/-- Refill step of TokenBucketRateLimiter.acquire
(worker/rate_limiter.py line 45): linear refill capped at burst.  Python
floats are modelled as rationals. -/
def refillTokens (rate burst tokens elapsed : Rat) : Rat :=
  min burst (tokens + elapsed * rate)

/-- One iteration of the TokenBucketRateLimiter.acquire loop under the
lock (lines 40-50): refill, then deduct when enough tokens are available.
Returns the grant decision and the new token count. -/
def acquire (rate burst tokens elapsed requested : Rat) : Bool × Rat :=
  let t := refillTokens rate burst tokens elapsed
  if requested ≤ t then (true, t - requested) else (false, t)

/-- Token count after a sequence of acquire iterations, each given its
elapsed wall-clock time and requested token count. -/
def runAcquires (rate burst : Rat) (tokens : Rat) :
    List (Rat × Rat) → Rat
  | [] => tokens
  | e :: es => runAcquires rate burst (acquire rate burst tokens e.1 e.2).2 es

/-- Whether the WHOIS check result is present and succeeded (the guard
used by the signal generator). -/
def whoisSucceeded (whois_result : Option WhoisResult) : Bool :=
  match whois_result with
  | some w => w.status == CheckStatus.success
  | none => false

/-- Whether the MX check result is present and succeeded. -/
def mxSucceeded (mx_result : Option MXResult) : Bool :=
  match mx_result with
  | some m => m.status == CheckStatus.success
  | none => false

/-- Whether the MX check result reports MX records. -/
def mxHasRecords (mx_result : Option MXResult) : Bool :=
  match mx_result with
  | some m => m.has_mx_records
  | none => false

/-- Whether a non-empty email containing an at sign was submitted (the
guard opening the email_match branch of the signal generator). -/
def emailWithAt (submitted_data : SubmittedData) : Bool :=
  strTruthy submitted_data.email &&
    (submitted_data.email.getD "").contains '@'

/-- The seven signal fields of the signal-policy table. -/
def SIGNAL_TABLE_KEYS : List String :=
  [ "domain_age", "whois_privacy", "dns_resolution", "website_lookup",
    "email_match", "mx_records", "phone_validation" ]

/-- C1: DatabaseManager.save_analysis does not apply the post-analysis
auto-classification: the company-row update it performs never writes the
status column, so for a pending company persisted with risk_score 80 and a
complete run the status stays pending, while the repository's own
classification rules (schema_utils risk-based normalization) map that
situation to fraudulent. -/
theorem save_analysis_skips_auto_classification :
    (∀ (c : CompanyRow) (risk : Int) (ic : Bool) (now : Int),
        (save_analysis c risk ic now).status = c.status) ∧
    (save_analysis
        { status := CompanyStatus.pending, risk_score := 0,
          analysis_status := AnalysisStatus.in_progress,
          current_step := some "llm_processing", last_analyzed_at := none }
        80 true 1700000000).status = CompanyStatus.pending ∧
    riskBasedNormalization "pending" "complete" 80 = "fraudulent" ∧
    CompanyStatus.value CompanyStatus.pending ≠ "fraudulent" := by
  refine ⟨fun c risk ic now => rfl, rfl, by decide, by decide⟩

/-- C2: with retry_mode failed_only and an empty failed_checks set the
orchestrator still runs all five probe stages: the empty-set branch of the
checks_to_run computation only logs and leaves the full probe list in
place, contradicting the reuse-previous-results behaviour the log message
announces. -/
theorem failed_only_empty_runs_all_probes :
    checks_to_run "failed_only" [] = PROBE_CHECKS ∧
    PROBE_CHECKS.length = 5 ∧
    checks_to_run "failed_only" [] ≠ [] := by
  refine ⟨by decide, by decide, by decide⟩

/-- C3: the operator transition table sends a pending company to rejected
on reject and an approved company to revoked on revoke_approval; rejected
and revoked are reachable statuses outside the normalized set
{pending, approved, suspicious, fraudulent} and neither equals
suspicious. -/
theorem reject_revoke_yield_legacy_statuses :
    apply_status_action CompanyStatus.pending "reject" =
      some CompanyStatus.rejected ∧
    apply_status_action CompanyStatus.approved "revoke_approval" =
      some CompanyStatus.revoked ∧
    CompanyStatus.value CompanyStatus.rejected ≠ "suspicious" ∧
    CompanyStatus.value CompanyStatus.revoked ≠ "suspicious" ∧
    CompanyStatus.value CompanyStatus.rejected ∉
      ["pending", "approved", "suspicious", "fraudulent"] ∧
    CompanyStatus.value CompanyStatus.revoked ∉
      ["pending", "approved", "suspicious", "fraudulent"] := by
  refine ⟨by decide, by decide, by decide, by decide, by decide, by decide⟩

/-- C5: the record-failure branch of process_all cannot update the
company's analysis status: AnalysisStatus has no COMPLETE member (the
lookup raises AttributeError) and update_company_analysis_status accepts no
mark_suspicious keyword, so the inner exception is swallowed and the
company row is returned unchanged for every company and timestamp. -/
theorem record_failure_leaves_company_unchanged :
    analysisStatusAttr "COMPLETE" = Except.error "AttributeError" ∧
    callAcceptsKwargs updateCompanyAnalysisStatusParams
      ["company_id", "status", "mark_suspicious"] = false ∧
    (∀ (c : CompanyRow) (now : Int), recordFailureStatusUpdate c now = c) ∧
    (recordFailureStatusUpdate
        { status := CompanyStatus.pending, risk_score := 0,
          analysis_status := AnalysisStatus.in_progress,
          current_step := some "whois", last_analyzed_at := none }
        1700000000).analysis_status = AnalysisStatus.in_progress := by
  refine ⟨rfl, by decide, fun c now => rfl, rfl⟩

/-- C9: WhoisClient._parse_date reduces a list of creation dates to its
first element, not the earliest: on the list [200000, 100000] it returns
200000 although the earliest entry is 100000, and the lookup's
domain_age_days is computed from that first date (9 days at now = 1000000
instead of the 10 days the earliest date would give). -/
theorem parse_date_not_earliest :
    parse_date (WhoisCreationDate.many [200000, 100000]) = some 200000 ∧
    earliestDate [200000, 100000] = some 100000 ∧
    whoisDomainAgeDays 1000000 (WhoisCreationDate.many [200000, 100000]) =
      some 9 ∧
    Int.fdiv (1000000 - 100000) 86400 = 10 ∧
    (some (200000 : Int)) ≠ some 100000 := by
  refine ⟨rfl, by decide, by decide, by decide, by decide⟩

/-- C9 (amended): for every non-empty creation-date list the client uses
the first entry, both as creation_date and for domain_age_days. -/
theorem parse_date_uses_first (now t : Int) (ts : List Int) :
    parse_date (WhoisCreationDate.many (t :: ts)) = some t ∧
    whoisDomainAgeDays now (WhoisCreationDate.many (t :: ts)) =
      some (Int.fdiv (now - t) 86400) :=
  ⟨rfl, rfl⟩

/-- C4: an exception in the first record of a two-record batch aborts
process_all: the error is re-raised, only one of the two records is
processed, and no results survive. -/
theorem batch_failure_short_circuits :
    process_all [RecordRun.fail "db error", RecordRun.ok "second"] =
      Except.error "db error" ∧
    recordsProcessed [RecordRun.fail "db error", RecordRun.ok "second"] = 1 ∧
    [RecordRun.fail "db error", RecordRun.ok "second"].length = 2 := by
  refine ⟨rfl, rfl, rfl⟩

/-- C4 (amended): process_all runs the records in order up to and
including the first failing one; that failure is re-raised, so the
remaining records of the batch are not processed. -/
theorem process_all_stops_at_first_failure (pre : List RecordRun)
    (err : String) (post : List RecordRun)
    (hpre : pre.all (fun r => !(isFailRecord r)) = true) :
    process_all (pre ++ RecordRun.fail err :: post) = Except.error err ∧
    recordsProcessed (pre ++ RecordRun.fail err :: post) = pre.length + 1 := by
  induction pre with
  | nil => exact ⟨rfl, rfl⟩
  | cons r rest ih =>
    rw [List.all_cons, Bool.and_eq_true] at hpre
    obtain ⟨hr, hrest⟩ := hpre
    cases r with
    | fail e => simp [isFailRecord] at hr
    | ok s =>
      obtain ⟨h1, h2⟩ := ih hrest
      constructor
      · show (process_all (rest ++ RecordRun.fail err :: post)).map
          (fun rs => s :: rs) = Except.error err
        rw [h1]
        rfl
      · show 1 + recordsProcessed (rest ++ RecordRun.fail err :: post) =
          (RecordRun.ok s :: rest).length + 1
        rw [h2]
        simp only [List.length_cons]
        omega

/-- C4 (witness): the amended statement at a concrete three-record batch
whose middle record fails. -/
theorem process_all_stops_witness :
    ([RecordRun.ok "first"].all (fun r => !(isFailRecord r)) = true) ∧
    (process_all ([RecordRun.ok "first"] ++
        RecordRun.fail "boom" :: [RecordRun.ok "third"]) =
      Except.error "boom" ∧
    recordsProcessed ([RecordRun.ok "first"] ++
        RecordRun.fail "boom" :: [RecordRun.ok "third"]) =
      [RecordRun.ok "first"].length + 1) :=
  ⟨by decide,
   process_all_stops_at_first_failure [RecordRun.ok "first"] "boom"
     [RecordRun.ok "third"] (by decide)⟩

/-- C7: the persisted is_complete flag is true exactly when at least three
checks succeeded, no check failed, and the LLM was either not attempted or
succeeded. -/
theorem is_complete_iff (successful_checks failed_checks : List String)
    (llm_attempted llm_succeeded : Bool) :
    computeIsComplete successful_checks failed_checks llm_attempted
        llm_succeeded = true ↔
      (3 ≤ successful_checks.length ∧ failed_checks = [] ∧
        (llm_attempted = false ∨ llm_succeeded = true)) := by
  unfold computeIsComplete
  cases llm_attempted <;> cases llm_succeeded <;>
    simp [List.length_eq_zero]

/-- Totality of code-point lexicographic comparison on character lists. -/
theorem charsLe_total (as bs : List Char) :
    charsLe as bs = true ∨ charsLe bs as = true := by
  induction as generalizing bs with
  | nil => left; rfl
  | cons a as ih =>
    cases bs with
    | nil => right; rfl
    | cons b bs =>
      by_cases h1 : a.toNat < b.toNat
      · left
        simp [charsLe, h1]
      · by_cases h2 : b.toNat < a.toNat
        · right
          simp [charsLe, h2]
        · rcases ih bs with h | h
          · left
            simp [charsLe, h1, h2, h]
          · right
            simp [charsLe, h1, h2, h]

/-- Totality of the Python string order. -/
theorem pyStrLe_total (a b : String) :
    pyStrLe a b = true ∨ pyStrLe b a = true :=
  charsLe_total a.data b.data

/-- Inserting into an adjacent-sorted string list preserves sortedness. -/
theorem chainLeB_insertSorted (x : String) :
    ∀ l : List String, chainLeB l = true →
      chainLeB (insertSortedStr x l) = true := by
  intro l
  induction l with
  | nil => intro _; rfl
  | cons y ys ih =>
    intro h
    by_cases hxy : pyStrLe x y = true
    · simp only [insertSortedStr, hxy, if_true]
      simp [chainLeB, hxy, h]
    · have hyx : pyStrLe y x = true := (pyStrLe_total x y).resolve_left hxy
      simp only [insertSortedStr, hxy, if_false, Bool.false_eq_true]
      cases ys with
      | nil =>
        simp [insertSortedStr, chainLeB, hyx]
      | cons z zs =>
        have hyz : pyStrLe y z = true := by
          simpa [chainLeB, Bool.and_eq_true] using And.left (by simpa [chainLeB, Bool.and_eq_true] using h)
        have hz : chainLeB (z :: zs) = true := by
          simpa [chainLeB, Bool.and_eq_true] using And.right (by simpa [chainLeB, Bool.and_eq_true] using h)
        by_cases hxz : pyStrLe x z = true
        · simp [insertSortedStr, hxz, chainLeB, hyx, hz]
        · have hins : chainLeB (insertSortedStr x (z :: zs)) = true :=
            ih (by simp [chainLeB, hyz, hz])
          simp only [insertSortedStr, hxz, if_false, Bool.false_eq_true]
            at hins ⊢
          simpa [chainLeB, hyz] using hins

/-- The result of sortStrings is sorted in Python string order. -/
theorem chainLeB_sortStrings (l : List String) :
    chainLeB (sortStrings l) = true := by
  induction l with
  | nil => rfl
  | cons x xs ih => exact chainLeB_insertSorted x _ ih

/-- insertSortedStr is a permutation of consing the element. -/
theorem insertSortedStr_perm (x : String) (l : List String) :
    List.Perm (insertSortedStr x l) (x :: l) := by
  induction l with
  | nil => exact List.Perm.refl _
  | cons y ys ih =>
    by_cases h : pyStrLe x y = true
    · simp only [insertSortedStr, h, if_true]
      exact List.Perm.refl _
    · simp only [insertSortedStr, h, if_false, Bool.false_eq_true]
      exact (ih.cons y).trans (List.Perm.swap x y ys)

/-- sortStrings permutes its input. -/
theorem sortStrings_perm (l : List String) :
    List.Perm (sortStrings l) l := by
  induction l with
  | nil => exact List.Perm.refl _
  | cons x xs ih =>
    exact (insertSortedStr_perm x (sortStrings xs)).trans (ih.cons x)

/-- C8: the MX resolver's output is not ascending by numeric preference: on
answers with preferences 5 and 10 the rendered strings sort
lexicographically, putting "10 ..." before "5 ...". -/
theorem mx_records_not_numeric_order :
    resolve_mx_records
        [ { preference := 5, exchange := "mail-a.example.com." },
          { preference := 10, exchange := "mail-b.example.com." } ] =
      ["10 mail-b.example.com", "5 mail-a.example.com"] ∧
    ascendingByPreference (resolve_mx_records
        [ { preference := 5, exchange := "mail-a.example.com." },
          { preference := 10, exchange := "mail-b.example.com." } ]) = false ∧
    mxRecordPreference "10 mail-b.example.com" = some 10 ∧
    mxRecordPreference "5 mail-a.example.com" = some 5 := by
  refine ⟨by decide, by decide, by decide, by decide⟩

/-- C8 (amended): the MX record strings "preference host" are returned
sorted ascending in Python's lexicographic string order (and are a
permutation of the rendered answers); this coincides with numeric
preference order only when all preferences have the same digit count. -/
theorem resolve_mx_records_sorted_lexicographic (answers : List MxAnswer) :
    chainLeB (resolve_mx_records answers) = true ∧
    List.Perm (resolve_mx_records answers) (answers.map formatMxRecord) :=
  ⟨chainLeB_sortStrings _, sortStrings_perm _⟩

/-- One acquire iteration keeps the token count within bounds. -/
theorem acquire_step_bounds (rate burst tokens elapsed requested : Rat)
    (hrate : 0 ≤ rate) (hburst : 0 ≤ burst) (h0 : 0 ≤ tokens)
    (he : 0 ≤ elapsed) (hreq : 0 ≤ requested) :
    0 ≤ (acquire rate burst tokens elapsed requested).2 ∧
    (acquire rate burst tokens elapsed requested).2 ≤ burst := by
  unfold acquire refillTokens
  have ht0 : 0 ≤ min burst (tokens + elapsed * rate) :=
    le_min hburst (add_nonneg h0 (mul_nonneg he hrate))
  have htb : min burst (tokens + elapsed * rate) ≤ burst := min_le_left _ _
  by_cases h : requested ≤ min burst (tokens + elapsed * rate)
  · simp only [h, if_true]
    constructor
    · simpa using sub_nonneg.mpr h
    · calc min burst (tokens + elapsed * rate) - requested
          ≤ min burst (tokens + elapsed * rate) := sub_le_self _ hreq
        _ ≤ burst := htb
  · simp only [h, if_false]
    exact ⟨ht0, htb⟩

/-- The token count stays within bounds along any sequence of acquire
iterations. -/
theorem runAcquires_bounds (rate burst : Rat) (hrate : 0 ≤ rate)
    (hburst : 0 ≤ burst) :
    ∀ (events : List (Rat × Rat)) (tokens : Rat), 0 ≤ tokens →
      tokens ≤ burst →
      events.all (fun e => decide (0 ≤ e.1) && decide (0 < e.2)) = true →
      0 ≤ runAcquires rate burst tokens events ∧
        runAcquires rate burst tokens events ≤ burst := by
  intro events
  induction events with
  | nil =>
    intro tokens h0 h1 _
    exact ⟨h0, h1⟩
  | cons e es ih =>
    intro tokens h0 h1 hev
    rw [List.all_cons, Bool.and_eq_true] at hev
    obtain ⟨he, hes⟩ := hev
    rw [Bool.and_eq_true, decide_eq_true_eq, decide_eq_true_eq] at he
    have step := acquire_step_bounds rate burst tokens e.1 e.2 hrate hburst h0
      he.1 (le_of_lt he.2)
    exact ih _ step.1 step.2 hes

/-- C10: under nonnegative rate and burst and a start within bounds, the
bucket's token count stays within 0..burst along any sequence of acquire
iterations with positive requested counts; the refill step never exceeds
burst; a grant happens exactly when the refilled bucket holds the
requested tokens and then deducts exactly that many; a denial leaves the
refilled token count undeducted. -/
theorem token_bucket_acquire_invariant (rate burst tokens : Rat)
    (events : List (Rat × Rat))
    (hrate : 0 ≤ rate) (hburst : 0 ≤ burst)
    (h0 : 0 ≤ tokens) (h1 : tokens ≤ burst)
    (hev : events.all (fun e => decide (0 ≤ e.1) && decide (0 < e.2)) = true) :
    (0 ≤ runAcquires rate burst tokens events ∧
      runAcquires rate burst tokens events ≤ burst) ∧
    ∀ elapsed requested : Rat, 0 ≤ elapsed → 0 < requested →
      refillTokens rate burst tokens elapsed ≤ burst ∧
      ((acquire rate burst tokens elapsed requested).1 = true ↔
        requested ≤ refillTokens rate burst tokens elapsed) ∧
      ((acquire rate burst tokens elapsed requested).1 = true →
        (acquire rate burst tokens elapsed requested).2 =
          refillTokens rate burst tokens elapsed - requested) ∧
      ((acquire rate burst tokens elapsed requested).1 = false →
        (acquire rate burst tokens elapsed requested).2 =
          refillTokens rate burst tokens elapsed) := by
  constructor
  · exact runAcquires_bounds rate burst hrate hburst events tokens h0 h1 hev
  · intro elapsed requested _ _
    refine ⟨min_le_left _ _, ?_, ?_, ?_⟩
    · unfold acquire
      by_cases h : requested ≤ refillTokens rate burst tokens elapsed
      · simp [h]
      · simp [h]
    · unfold acquire
      by_cases h : requested ≤ refillTokens rate burst tokens elapsed
      · simp [h]
      · simp [h]
    · unfold acquire
      by_cases h : requested ≤ refillTokens rate burst tokens elapsed
      · simp [h]
      · simp [h]

/-- The domain-age section always emits exactly one domain_age signal. -/
theorem domainAgeSignals_fields (w : Option WhoisResult) :
    (domainAgeSignals w).map (fun s => s.field) = ["domain_age"] := by
  unfold domainAgeSignals
  cases w with
  | none => rfl
  | some r =>
    by_cases h : (r.status == CheckStatus.success) = true
    · simp only [h, if_true]
      cases r.domain_age_days with
      | none => rfl
      | some age =>
        by_cases ha : age < 365
        · simp [ha]
        · simp [ha]
    · simp [h]

/-- The WHOIS privacy section emits one whois_privacy signal exactly when
the WHOIS check succeeded. -/
theorem whoisPrivacySignals_fields (w : Option WhoisResult) :
    (whoisPrivacySignals w).map (fun s => s.field) =
      (if whoisSucceeded w then ["whois_privacy"] else []) := by
  unfold whoisPrivacySignals whoisSucceeded
  cases w with
  | none => rfl
  | some r =>
    by_cases h : (r.status == CheckStatus.success) = true
    · by_cases hp : r.privacy_enabled = true
      · simp [h, hp]
      · simp [h, hp]
    · simp [h]

/-- The DNS section always emits exactly one dns_resolution signal. -/
theorem dnsResolutionSignals_fields (d : Option DNSResult) :
    (dnsResolutionSignals d).map (fun s => s.field) = ["dns_resolution"] := by
  unfold dnsResolutionSignals
  cases d with
  | none => rfl
  | some r =>
    by_cases h : (r.status == CheckStatus.success) = true
    · by_cases hr : r.resolves = true
      · simp [h, hr]
      · simp [h, hr]
    · simp [h]

/-- The website section always emits exactly one website_lookup signal. -/
theorem websiteLookupSignals_fields (web : Option WebResult) :
    (websiteLookupSignals web).map (fun s => s.field) = ["website_lookup"] := by
  unfold websiteLookupSignals
  cases web with
  | none => rfl
  | some r =>
    by_cases h : (r.status == CheckStatus.success) = true
    · by_cases hr : r.reachable = true
      · simp [h, hr]
      · simp [h, hr]
    · simp [h]

/-- The email/MX section emits one email_match signal when an email with a
domain part was submitted; with no email it emits one mx_records signal
only when the MX check succeeded with no records, and nothing otherwise. -/
theorem emailMxSignals_fields (s : SubmittedData) (mx : Option MXResult) :
    (emailMxSignals s mx).map (fun x => x.field) =
      (if emailWithAt s then ["email_match"]
       else if mxSucceeded mx && !mxHasRecords mx then ["mx_records"]
       else []) := by
  unfold emailMxSignals emailWithAt mxSucceeded mxHasRecords
  by_cases h : (strTruthy s.email && (s.email.getD "").contains '@') = true
  · simp only [h, if_true]
    split
    · rfl
    · cases mx with
      | none => rfl
      | some m =>
        by_cases hs : (m.status == CheckStatus.success) = true
        · by_cases hr : m.has_mx_records = true
          · simp [hs, hr]
          · simp [hs, hr]
        · simp [hs]
  · simp only [h, Bool.false_eq_true, if_false]
    cases mx with
    | none => rfl
    | some m =>
      by_cases hs : (m.status == CheckStatus.success) = true
      · by_cases hr : m.has_mx_records = true
        · simp [hs, hr]
        · simp [hs, hr]
      · simp [hs]

/-- The phone section emits one phone_validation signal exactly when a
phone number was submitted. -/
theorem phoneValidationSignals_fields (s : SubmittedData)
    (p : Option PhoneResult) :
    (phoneValidationSignals s p).map (fun x => x.field) =
      (if strTruthy s.phone then ["phone_validation"] else []) := by
  unfold phoneValidationSignals
  by_cases h : strTruthy s.phone = true
  · simp only [h, if_true]
    cases p with
    | none => rfl
    | some r =>
      by_cases hs : (r.status == CheckStatus.success) = true
      · by_cases hv : r.valid = true
        · simp [hs, hv]
        · simp [hs, hv]
      · simp [hs]
  · simp [h]

/-- C6: on a run where the MX probe succeeded and found records but no
email was submitted, the generated signals contain no email_match and no
mx_records entry at all, while the single succeeded WHOIS probe
contributes two signals — so a succeeded stage does not contribute exactly
one signal. -/
theorem mx_success_without_email_contributes_no_signal :
    (generate_signals
        { name := "NovaGeo", domain := "novageo.io" }
        (some { domain_age_days := some 400, privacy_enabled := false,
                status := CheckStatus.success })
        (some { resolves := true, a_records := ["1.2.3.4"],
                status := CheckStatus.success })
        (some { reachable := true, status_code := some 200,
                status := CheckStatus.success })
        (some { has_mx_records := true,
                mx_records := ["10 mail.novageo.io"],
                email_configured := true, status := CheckStatus.success })
        none).map (fun s => s.field) =
      ["domain_age", "whois_privacy", "dns_resolution", "website_lookup"] ∧
    (generate_signals
        { name := "NovaGeo", domain := "novageo.io" }
        (some { domain_age_days := some 400, privacy_enabled := false,
                status := CheckStatus.success })
        (some { resolves := true, a_records := ["1.2.3.4"],
                status := CheckStatus.success })
        (some { reachable := true, status_code := some 200,
                status := CheckStatus.success })
        (some { has_mx_records := true,
                mx_records := ["10 mail.novageo.io"],
                email_configured := true, status := CheckStatus.success })
        none).countP
      (fun s => s.field == "mx_records" || s.field == "email_match") = 0 ∧
    (generate_signals
        { name := "NovaGeo", domain := "novageo.io" }
        (some { domain_age_days := some 400, privacy_enabled := false,
                status := CheckStatus.success })
        (some { resolves := true, a_records := ["1.2.3.4"],
                status := CheckStatus.success })
        (some { reachable := true, status_code := some 200,
                status := CheckStatus.success })
        (some { has_mx_records := true,
                mx_records := ["10 mail.novageo.io"],
                email_configured := true, status := CheckStatus.success })
        none).countP
      (fun s => s.field == "domain_age" || s.field == "whois_privacy") = 2 := by
  refine ⟨by decide, by decide, by decide⟩

/-- C6 (amended): the field profile of the generated signal list — one
domain_age signal always, one whois_privacy signal exactly on WHOIS
success, one dns_resolution and one website_lookup signal always, one
email_match signal when an email with a domain part was submitted, one
mx_records signal when no such email was submitted and the MX probe
succeeded finding no records (none when it succeeded finding records), and
one phone_validation signal exactly when a phone was submitted; every
field is one of the seven table keys. -/
theorem generate_signals_field_profile (submitted : SubmittedData)
    (w : Option WhoisResult) (d : Option DNSResult) (web : Option WebResult)
    (mx : Option MXResult) (p : Option PhoneResult) :
    (generate_signals submitted w d web mx p).map (fun s => s.field) =
      ["domain_age"]
        ++ (if whoisSucceeded w then ["whois_privacy"] else [])
        ++ ["dns_resolution"] ++ ["website_lookup"]
        ++ (if emailWithAt submitted then ["email_match"]
            else if mxSucceeded mx && !mxHasRecords mx then ["mx_records"]
            else [])
        ++ (if strTruthy submitted.phone then ["phone_validation"] else []) ∧
    ∀ sig ∈ generate_signals submitted w d web mx p,
      sig.field ∈ SIGNAL_TABLE_KEYS := by
  have hmap : (generate_signals submitted w d web mx p).map (fun s => s.field) =
      ["domain_age"]
        ++ (if whoisSucceeded w then ["whois_privacy"] else [])
        ++ ["dns_resolution"] ++ ["website_lookup"]
        ++ (if emailWithAt submitted then ["email_match"]
            else if mxSucceeded mx && !mxHasRecords mx then ["mx_records"]
            else [])
        ++ (if strTruthy submitted.phone then ["phone_validation"] else []) := by
    unfold generate_signals
    rw [List.map_append, List.map_append, List.map_append, List.map_append,
      List.map_append]
    rw [domainAgeSignals_fields, whoisPrivacySignals_fields,
      dnsResolutionSignals_fields, websiteLookupSignals_fields,
      emailMxSignals_fields, phoneValidationSignals_fields]
  refine ⟨hmap, ?_⟩
  intro sig hsig
  have hmem : sig.field ∈
      (generate_signals submitted w d web mx p).map (fun s => s.field) :=
    List.mem_map_of_mem _ hsig
  rw [hmap] at hmem
  unfold SIGNAL_TABLE_KEYS
  split_ifs at hmem <;> simp_all <;> tauto

end Intellicheck

namespace Intellicheck

/-- C10 (witness): the invariant at rate 1, burst 2, two start tokens and a
single iteration requesting one token after no elapsed time. -/
theorem token_bucket_acquire_witness :
    ((0 : Rat) ≤ 1) ∧ ((0 : Rat) ≤ 2) ∧ ((2 : Rat) ≤ 2) ∧
    ([((0 : Rat), (1 : Rat))].all
      (fun e => decide (0 ≤ e.1) && decide (0 < e.2)) = true) ∧
    ((0 ≤ runAcquires 1 2 2 [((0 : Rat), (1 : Rat))] ∧
      runAcquires 1 2 2 [((0 : Rat), (1 : Rat))] ≤ 2) ∧
    ∀ elapsed requested : Rat, 0 ≤ elapsed → 0 < requested →
      refillTokens 1 2 2 elapsed ≤ 2 ∧
      ((acquire 1 2 2 elapsed requested).1 = true ↔
        requested ≤ refillTokens 1 2 2 elapsed) ∧
      ((acquire 1 2 2 elapsed requested).1 = true →
        (acquire 1 2 2 elapsed requested).2 =
          refillTokens 1 2 2 elapsed - requested) ∧
      ((acquire 1 2 2 elapsed requested).1 = false →
        (acquire 1 2 2 elapsed requested).2 =
          refillTokens 1 2 2 elapsed)) :=
  ⟨by decide, by decide, by decide, by decide,
   token_bucket_acquire_invariant 1 2 2 [((0 : Rat), (1 : Rat))]
     (by decide) (by decide) (by decide) (by decide) (by decide)⟩

end Intellicheck
